import Mathlib

/-!
Verification of the AiScrapper decision/action core.

This file gives a shallow embedding of the repository's four modules:

* `toolbox.py`  — the closed `Action` union and its pydantic validation;
* `executor.py` — `ActionExecutor.execute`, which dispatches browser effects
  and converts exceptions raised inside its `try` block into result
  strings, but whose unguarded `action.description` access on line 51
  raises `AttributeError` past its boundary for actions without that field;
* `agent.py`    — `Agent.run`, the per-step OODA loop over a step budget;
* `main.py`     — `main`, the entry point (WebDriver setup, agent start,
  cleanup).

External effects (Selenium driver calls, LLM requests, page observation,
HTML reduction via BeautifulSoup) are modelled as oracles: functions
supplied as parameters that say what each external call returns or raises.
The embedding records the externally visible events of a run in a trace so
that claims about which effects happen (navigations, executor calls,
extraction requests) can be stated and proved.
-/

namespace AiScrapper

/-- Action union from `toolbox.py` (lines 14-78): the closed, tagged set of
actions the model may choose.  Each constructor carries exactly the required
string fields of the corresponding pydantic model. -/
inductive Action where
  | Navigate (url : String)
  | Click (css_selector description : String)
  | FillField (css_selector text description : String)
  | SelectDropdown (css_selector value description : String)
  | PerformPostback (event_target event_argument description : String)
  | ExtractData (description : String)
  | Finish (reason : String)
  deriving DecidableEq

/-- Tag of each variant: the `action_name` Literal field of each pydantic
model in `toolbox.py`. -/
def Action.action_name : Action → String
  | .Navigate _ => "navigate"
  | .Click _ _ => "click"
  | .FillField _ _ _ => "fill_field"
  | .SelectDropdown _ _ _ => "select_dropdown"
  | .PerformPostback _ _ _ => "perform_postback"
  | .ExtractData _ => "extract_data"
  | .Finish _ => "finish"

/-- Models `getattr(action, 'css_selector', 'N/A')` in `executor.py` line 77:
the selector for the variants that have one, `"N/A"` otherwise. -/
def Action.selectorOrNA : Action → String
  | .Click sel _ => sel
  | .FillField sel _ _ => sel
  | .SelectDropdown sel _ _ => sel
  | _ => "N/A"

/-- True for the five browser-mutating variants: the ones `Agent.run`
delegates to the Executor (everything but `ExtractData` and `Finish`). -/
def Action.isBrowserAction : Action → Bool
  | .Navigate _ => true
  | .Click _ _ => true
  | .FillField _ _ _ => true
  | .SelectDropdown _ _ _ => true
  | .PerformPostback _ _ _ => true
  | .ExtractData _ => false
  | .Finish _ => false

/-- True for the four element-targeting variants named by the spec's
element-not-found property (`Click`, `FillField`, `SelectDropdown`,
`PerformPostback`). -/
def Action.isElementAction : Action → Bool
  | .Click _ _ => true
  | .FillField _ _ _ => true
  | .SelectDropdown _ _ _ => true
  | .PerformPostback _ _ _ => true
  | _ => false

/-- True for the variants whose pydantic model declares a `description`
field (`toolbox.py`): all but `Navigate` (only `action_name`, `url`) and
`Finish` (only `action_name`, `reason`).  Accessing `description` on those
two raises `AttributeError`, which is why `agent.py` line 98 guards its own
access with `hasattr`. -/
def Action.hasDescription : Action → Bool
  | .Navigate _ => false
  | .Finish _ => false
  | _ => true

/-! ## Toolbox validation (`toolbox.py`)

Pydantic validates raw model output against the `Action` union: the
`action_name` Literal field discriminates the variant, every field declared
with `Field(...)` is required and must be a string, extra fields are
ignored, and a payload matching no variant raises a validation error.  A
raw payload is modelled as the tag plus an optional string per field name
occurring in any variant (a field that is absent or not a string is
`none`). -/

/-- Raw structured output from the model, before validation. -/
structure RawPayload where
  tag : String
  url : Option String := none
  css_selector : Option String := none
  text : Option String := none
  value : Option String := none
  description : Option String := none
  event_target : Option String := none
  event_argument : Option String := none
  reason : Option String := none
  deriving DecidableEq

/-- Validation failure: the payload matches no variant of the union.
Carries the offending field (the discriminator `action_name` for an
unknown tag, else the first missing required field). -/
inductive ValidationError where
  | schemaViolation (field : String)
  deriving DecidableEq

/-- Validation of a raw payload against the `Action` union of `toolbox.py`:
the tag must equal one variant's `action_name` literal and that variant's
required fields must all be present. -/
def Toolbox.validate (p : RawPayload) : Except ValidationError Action :=
  if p.tag = "navigate" then
    match p.url with
    | some u => .ok (.Navigate u)
    | none => .error (.schemaViolation "url")
  else if p.tag = "click" then
    match p.css_selector, p.description with
    | some s, some d => .ok (.Click s d)
    | none, _ => .error (.schemaViolation "css_selector")
    | _, none => .error (.schemaViolation "description")
  else if p.tag = "fill_field" then
    match p.css_selector, p.text, p.description with
    | some s, some t, some d => .ok (.FillField s t d)
    | none, _, _ => .error (.schemaViolation "css_selector")
    | _, none, _ => .error (.schemaViolation "text")
    | _, _, none => .error (.schemaViolation "description")
  else if p.tag = "select_dropdown" then
    match p.css_selector, p.value, p.description with
    | some s, some v, some d => .ok (.SelectDropdown s v d)
    | none, _, _ => .error (.schemaViolation "css_selector")
    | _, none, _ => .error (.schemaViolation "value")
    | _, _, none => .error (.schemaViolation "description")
  else if p.tag = "perform_postback" then
    match p.event_target, p.event_argument, p.description with
    | some t, some a, some d => .ok (.PerformPostback t a d)
    | none, _, _ => .error (.schemaViolation "event_target")
    | _, none, _ => .error (.schemaViolation "event_argument")
    | _, _, none => .error (.schemaViolation "description")
  else if p.tag = "extract_data" then
    match p.description with
    | some d => .ok (.ExtractData d)
    | none => .error (.schemaViolation "description")
  else if p.tag = "finish" then
    match p.reason with
    | some r => .ok (.Finish r)
    | none => .error (.schemaViolation "reason")
  else .error (.schemaViolation "action_name")

/-- Spec-side predicate: the tag names a known variant.  Stated from the
spec's words for comparison with `Toolbox.validate`. -/
def knownTag (t : String) : Bool :=
  t = "navigate" || t = "click" || t = "fill_field" || t = "select_dropdown"
    || t = "perform_postback" || t = "extract_data" || t = "finish"

/-- Spec-side predicate: all required fields of the variant named by the
payload's tag are present.  Stated from the spec's words for comparison
with `Toolbox.validate`. -/
def requiredPresent (p : RawPayload) : Bool :=
  if p.tag = "navigate" then p.url.isSome
  else if p.tag = "click" then p.css_selector.isSome && p.description.isSome
  else if p.tag = "fill_field" then
    p.css_selector.isSome && p.text.isSome && p.description.isSome
  else if p.tag = "select_dropdown" then
    p.css_selector.isSome && p.value.isSome && p.description.isSome
  else if p.tag = "perform_postback" then
    p.event_target.isSome && p.event_argument.isSome && p.description.isSome
  else if p.tag = "extract_data" then p.description.isSome
  else if p.tag = "finish" then p.reason.isSome
  else false

/-! ## Executor (`executor.py`)

Before its `try` block, `ActionExecutor.execute` evaluates
`f"[EXECUTOR] > Executing: {action.description}"` (line 51).  For an
action without a `description` field this access raises `AttributeError`,
and since it happens outside the `try`, the exception escapes the executor
boundary.  The Selenium calls inside the `try` block can also raise; the
driver is modelled as an oracle mapping the action being executed to the
exception its browser effect raises, if any: `NoSuchElementException` and
`TimeoutException` are the two caught by the first `except` clause; every
other exception raised inside the `try` is caught by the second. -/

/-- An exception that escapes the executor boundary: the `AttributeError`
raised by the unguarded `action.description` access at `executor.py`
line 51, which sits outside the `try` block. -/
inductive UncaughtExc where
  | attributeError (attr : String)
  deriving DecidableEq

/-- Exception outcome of the browser effect for one action. -/
inductive DriverExc where
  | noSuchElement
  | timeout
  | other (msg : String)
  deriving DecidableEq

/-- Driver oracle: what exception, if any, the browser raises while
performing a given action's effect (`none` means the effect succeeds). -/
def DriverEnv : Type := Action → Option DriverExc

/-- Exception class name, as interpolated by `e.__class__.__name__` in
`executor.py` line 77. -/
def DriverExc.className : DriverExc → String
  | .noSuchElement => "NoSuchElementException"
  | .timeout => "TimeoutException"
  | .other _ => "Exception"

/-- Body of the `try` block of `ActionExecutor.execute` (`executor.py`
lines 53-74): dispatch on the action; `ExtractData` and `Finish` return an
acknowledgement without touching the browser; the browser-mutating variants
perform their effect (which may raise, per the driver oracle) and then
return `"Success"`. -/
def ActionExecutor.executeBody (env : DriverEnv) (a : Action) : Except DriverExc String :=
  match a with
  | .ExtractData _ | .Finish _ =>
    .ok ("Action \x27" ++ a.action_name ++ "\x27 acknowledged. No browser interaction needed.")
  | _ =>
    match env a with
    | some e => .error e
    | none => .ok "Success"

/-- Message built by the first `except` clause of `execute` (`executor.py`
lines 76-79), for `NoSuchElementException` and `TimeoutException`. -/
def ActionExecutor.notFoundMessage (a : Action) (e : DriverExc) : String :=
  "Error executing " ++ (a.action_name ++ (": Element not found with selector \x27"
    ++ (a.selectorOrNA ++ ("\x27. Details: " ++ e.className))))

/-- Message built by the second `except` clause of `execute` (`executor.py`
lines 80-83), for any other exception. -/
def ActionExecutor.unexpectedMessage (a : Action) (msg : String) : String :=
  "An unexpected error occurred during " ++ (a.action_name ++ (": " ++ msg))

/-- `ActionExecutor.execute` (`executor.py` lines 37-83).  Line 51 prints
`action.description` before the `try` block: for an action that has no
`description` field (a `Navigate` or a `Finish`) this raises
`AttributeError` past the executor boundary, so `execute` is modelled as
fallible.  Otherwise it runs the `try` body and converts each caught
exception into the corresponding descriptive result string. -/
def ActionExecutor.execute (env : DriverEnv) (a : Action) : Except UncaughtExc String :=
  if a.hasDescription then
    .ok (match ActionExecutor.executeBody env a with
      | .ok s => s
      | .error .noSuchElement => ActionExecutor.notFoundMessage a .noSuchElement
      | .error .timeout => ActionExecutor.notFoundMessage a .timeout
      | .error (.other msg) => ActionExecutor.unexpectedMessage a msg)
  else .error (.attributeError "description")

example : ActionExecutor.execute (fun _ => none) (.Click "#b" "btn") = .ok "Success" := by rfl

example : ActionExecutor.execute (fun _ => none) (.Navigate "https://a")
    = .error (.attributeError "description") := by rfl

example : ActionExecutor.execute (fun _ => some .noSuchElement) (.Click "#b" "btn")
    = .ok "Error executing click: Element not found with selector \x27#b\x27. Details: NoSuchElementException" := by rfl

/-! ## Decision loop (`agent.py`)

`Agent.run` iterates `for step in range(self.max_steps)`.  Each iteration
observes the page, reduces its HTML, sends a decision request, and branches
on the response: a parse/transport error appends an `LLM_Error` history
entry and continues; `Finish` breaks out of the loop; `ExtractData` sends a
second model request over the same reduced markup and appends its outcome;
every other action is delegated to `ActionExecutor.execute` — a call with
no surrounding `try` (line 171), so an exception escaping the executor
(the `AttributeError` of `executor.py` line 51 on a `Navigate`) aborts the
whole run.  The `else` clause of the `for` fires only when the budget is
exhausted without a `break`.

The external world of one run is an `Oracle`: the decision response per
step, the extraction response per step, the raw page source observed per
step, the driver exception behaviour per step, and the (external,
BeautifulSoup-based) HTML reduction function `_clean_html`.  The run
records every externally visible effect in a trace of `Event`s. -/

/-- Outcome of one decision request: a validated `Action`, or the error
raised while requesting/parsing the response (caught at `agent.py`
lines 141-144). -/
inductive LLMResult where
  | ok (a : Action)
  | err (msg : String)
  deriving DecidableEq

/-- Outcome of one extraction request: the number of companies in the
validated `CompanyList`, or the error raised (caught at `agent.py`
lines 167-169). -/
inductive ExtractResult where
  | ok (companies : Nat)
  | err (msg : String)
  deriving DecidableEq

/-- Externally visible effects of a run, in order. -/
inductive Event where
  | initialNavigate (url : String)
  | observe (simplifiedHtml : String)
  | decisionRequest (simplifiedHtml : String)
  | extractRequest (simplifiedHtml : String)
  | executorCall (a : Action)
  deriving DecidableEq

/-- The `action` field of a history entry: either a validated action
(`action.model_dump()`, kept here as the action itself) or the literal
string `"LLM_Error"` appended on a decision failure (`agent.py` line 143). -/
inductive HAction where
  | act (a : Action)
  | llmError
  deriving DecidableEq

/-- One `{action, result}` history entry (`agent.py` lines 143 and 174). -/
structure HistoryEntry where
  action : HAction
  result : String
  deriving DecidableEq

/-- How the loop ended: an explicit `Finish` break (`agent.py` line 149),
the `for`-`else` exhaustion branch (`agent.py` lines 176-177), or an abort
— the executor call at `agent.py` line 171 has no surrounding `try`, so an
exception escaping `execute` propagates out of `Agent.run`. -/
inductive Outcome where
  | finished (reason : String)
  | exhausted
  | aborted (e : UncaughtExc)
  deriving DecidableEq

/-- Final state of a run: how it ended, the accumulated history, and the
trace of external effects. -/
structure RunResult where
  outcome : Outcome
  history : List HistoryEntry
  trace : List Event
  deriving DecidableEq

/-- Oracle for the external collaborators of one run, indexed by step. -/
structure Oracle where
  decision : Nat → LLMResult
  extraction : Nat → ExtractResult
  pageSource : Nat → String
  driver : Nat → DriverEnv
  cleanHtml : String → String

/-- Step result string recorded for an `ExtractData` step (`agent.py`
lines 166 and 169). -/
def extractionResultString : ExtractResult → String
  | .ok n => "Successfully extracted " ++ (toString n ++ " companies.")
  | .err msg => "Data extraction failed: " ++ msg

/-- The loop of `Agent.run` (`agent.py` lines 114-177), from step `step`
with `remaining` iterations left in the budget, carrying the history and
trace accumulated so far.  Each iteration appends its observe and decision
events, then branches exactly as the source does. -/
def runFrom (o : Oracle) (step remaining : Nat) (hist : List HistoryEntry)
    (tr : List Event) : RunResult :=
  match remaining with
  | 0 => ⟨.exhausted, hist, tr⟩
  | r + 1 =>
    let simplified := o.cleanHtml (o.pageSource step)
    let tr1 := tr ++ [.observe simplified, .decisionRequest simplified]
    match o.decision step with
    | .err e => runFrom o (step + 1) r (hist ++ [⟨.llmError, e⟩]) tr1
    | .ok a =>
      match a with
      | .Finish reason => ⟨.finished reason, hist, tr1⟩
      | .ExtractData d =>
        let res := extractionResultString (o.extraction step)
        runFrom o (step + 1) r (hist ++ [⟨.act (.ExtractData d), res⟩])
          (tr1 ++ [.extractRequest simplified])
      | a =>
        match ActionExecutor.execute (o.driver step) a with
        | .ok res => runFrom o (step + 1) r (hist ++ [⟨.act a, res⟩]) (tr1 ++ [.executorCall a])
        | .error exc => ⟨.aborted exc, hist, tr1 ++ [.executorCall a]⟩

/-- `Agent.run` (`agent.py` lines 106-177): navigate to the starting URL,
then run the loop from step 0 with the full budget, empty history and the
initial navigation in the trace. -/
def Agent.run (o : Oracle) (targetUrl : String) (maxSteps : Nat) : RunResult :=
  runFrom o 0 maxSteps [] [.initialNavigate targetUrl]

/-- True when a decision response is a `Finish` action. -/
def LLMResult.isFinish : LLMResult → Bool
  | .ok (.Finish _) => true
  | _ => false

/-- True for an `executorCall` trace event. -/
def Event.isExecutorCall : Event → Bool
  | .executorCall _ => true
  | _ => false

/-- True for an `executorCall` carrying a `Navigate` action: an
action-driven browser navigation. -/
def Event.isNavigateCall : Event → Bool
  | .executorCall (.Navigate _) => true
  | _ => false

/-- True for an `extractRequest` trace event. -/
def Event.isExtractRequest : Event → Bool
  | .extractRequest _ => true
  | _ => false

/-- True for a `decisionRequest` trace event. -/
def Event.isDecisionRequest : Event → Bool
  | .decisionRequest _ => true
  | _ => false

/-! ## Entry point (`main.py`)

`main` sets up the WebDriver (returning early if that raises), constructs
the `Agent` inside a `try`, then evaluates `agent.run()` on line 67.
`Agent.run` is declared `async def`, and line 67 neither awaits the
coroutine nor hands it to an event loop, so by Python's coroutine
semantics the call merely allocates a coroutine object: not one statement
of the loop body executes.  The `finally` block then closes the driver.
The trace embeds loop `Event`s via `MainEvent.loopStep` so that the
absence of any loop effect is expressible. -/

/-- Externally visible effects of `main` (`main.py` lines 28-74). -/
inductive MainEvent where
  | setupError (msg : String)
  | agentConstructed
  | runCoroutineCreated
  | runErrorPrinted (msg : String)
  | driverQuit
  | loopStep (e : Event)
  deriving DecidableEq

/-- The effect trace of `main` (`main.py` lines 28-74).  `setupFail` is the
exception raised during WebDriver setup, if any (caught at lines 52-54,
then `main` returns before the `try`/`finally`); `initFail` is the
exception raised by `Agent.__init__`, if any (caught at lines 69-70).  When
both succeed, line 67 creates the `Agent.run` coroutine without awaiting
it, contributing no `loopStep` events, and the `finally` closes the
driver. -/
def main (setupFail : Option String) (initFail : Option String) : List MainEvent :=
  match setupFail with
  | some msg => [.setupError msg]
  | none =>
    match initFail with
    | some msg => [.runErrorPrinted msg, .driverQuit]
    | none => [.agentConstructed, .runCoroutineCreated, .driverQuit]

/-! ## Executor lemmas -/

/-- When the browser effect of an element-targeting action (which has a
`description`, so line 51 succeeds) succeeds, `execute` returns the
`"Success"` string normally. -/
theorem execute_of_none (env : DriverEnv) (a : Action)
    (ha : a.isElementAction = true) (hv : env a = none) :
    ActionExecutor.execute env a = .ok "Success" := by
  cases a <;> simp_all [ActionExecutor.execute, ActionExecutor.executeBody,
    Action.isElementAction, Action.hasDescription]

/-- When the browser effect of an element-targeting action raises,
`execute` returns the string built by the matching `except` clause. -/
theorem execute_of_exc (env : DriverEnv) (a : Action) (e : DriverExc)
    (ha : a.isElementAction = true) (hv : env a = some e) :
    ActionExecutor.execute env a =
      .ok (match e with
        | .noSuchElement => ActionExecutor.notFoundMessage a .noSuchElement
        | .timeout => ActionExecutor.notFoundMessage a .timeout
        | .other m => ActionExecutor.unexpectedMessage a m) := by
  cases a with
  | Navigate u => simp [Action.isElementAction] at ha
  | ExtractData d => simp [Action.isElementAction] at ha
  | Finish r => simp [Action.isElementAction] at ha
  | Click s d =>
    cases e <;> simp [ActionExecutor.execute, ActionExecutor.executeBody,
      Action.hasDescription, hv]
  | FillField s t d =>
    cases e <;> simp [ActionExecutor.execute, ActionExecutor.executeBody,
      Action.hasDescription, hv]
  | SelectDropdown s v d =>
    cases e <;> simp [ActionExecutor.execute, ActionExecutor.executeBody,
      Action.hasDescription, hv]
  | PerformPostback t g d =>
    cases e <;> simp [ActionExecutor.execute, ActionExecutor.executeBody,
      Action.hasDescription, hv]

/-- The literal part of the element-not-found message splits around the
words `Element not found`. -/
theorem colon_element_split :
    ": Element not found with selector \x27"
      = ": " ++ ("Element not found" ++ " with selector \x27") := rfl

/-! ## Concrete oracles used by witnesses and scenarios -/

/-- Driver behaviour that raises `NoSuchElementException` on every
action. -/
def noElemEnv : DriverEnv := fun _ => some .noSuchElement

/-- Driver behaviour that raises `TimeoutException` on every action. -/
def timeoutEnv : DriverEnv := fun _ => some .timeout

/-- Oracle whose model immediately answers `Finish "done"`. -/
def finishOracle : Oracle :=
  ⟨fun _ => .ok (.Finish "done"), fun _ => .ok 0, fun _ => "<p>", fun _ _ => none, fun s => s⟩

/-- Oracle whose model answer always fails to parse. -/
def errOracle : Oracle :=
  ⟨fun _ => .err "malformed JSON", fun _ => .ok 0, fun _ => "<p>", fun _ _ => none, fun s => s⟩

/-- Oracle whose model always chooses `ExtractData` and whose extraction
request returns 7 companies. -/
def extractOracle : Oracle :=
  ⟨fun _ => .ok (.ExtractData "ready"), fun _ => .ok 7, fun _ => "<p>", fun _ _ => none, fun s => s⟩

/-- Oracle whose model always chooses a `Navigate` and never finishes. -/
def noFinishOracle : Oracle :=
  ⟨fun _ => .ok (.Navigate "https://a"), fun _ => .ok 0, fun _ => "<p>", fun _ _ => none, fun s => s⟩

/-- Decision sequence of the spec's three-step scenario:
`Navigate("https://x/list")`, then `ExtractData`, then `Finish("done")`. -/
def scenarioDecisions : Nat → LLMResult
  | 0 => .ok (.Navigate "https://x/list")
  | 1 => .ok (.ExtractData "page has companies")
  | _ => .ok (.Finish "done")

/-- Oracle for the spec's three-step scenario: the extraction request
succeeds with 5 companies and the driver raises nothing. -/
def scenarioOracle : Oracle :=
  ⟨scenarioDecisions, fun _ => .ok 5, fun _ => "<html>", fun _ _ => none, fun s => s⟩

/-- The spec's three-step scenario run: budget 3, starting URL
`https://start`. -/
def scenarioRun : RunResult := Agent.run scenarioOracle "https://start" 3

/-! ## Claims about the decision loop -/

/-- C3: whenever the model returns a `Finish` action at a step, the loop
terminates within that same step — the outcome is `finished` with that
reason regardless of the remaining budget — no history entry is appended
for that step, and the trace gains only the observe and decision-request
events of the step, so in particular no `ActionExecutor` call is made. -/
theorem finish_ends_run_immediately (o : Oracle) (step r : Nat)
    (hist : List HistoryEntry) (tr : List Event) (reason : String)
    (h : o.decision step = .ok (.Finish reason)) :
    (runFrom o step (r + 1) hist tr).outcome = .finished reason
    ∧ (runFrom o step (r + 1) hist tr).history = hist
    ∧ (runFrom o step (r + 1) hist tr).trace
        = tr ++ [.observe (o.cleanHtml (o.pageSource step)),
                 .decisionRequest (o.cleanHtml (o.pageSource step))] := by
  refine ⟨?_, ?_, ?_⟩ <;> simp [runFrom, h]

/-- Witness for C3 at a concrete input: budget 5, model answers
`Finish "done"` at step 0; the run ends at once with empty history and only
the step's observe and decision-request events. -/
theorem finish_ends_run_immediately_witness :
    (runFrom finishOracle 0 5 [] []).outcome = .finished "done"
    ∧ (runFrom finishOracle 0 5 [] []).history = []
    ∧ (runFrom finishOracle 0 5 [] []).trace = [.observe "<p>", .decisionRequest "<p>"] :=
  finish_ends_run_immediately finishOracle 0 4 [] [] "done" rfl

/-- C7: when the decision request at a step fails (parse/validation failure
or transport error), the run equals the run restarted at the next step with
one synthetic `LLM_Error` history entry appended carrying the error text,
and the step contributes only its observe and decision-request events — no
browser action — so a single bad response never aborts the run. -/
theorem llm_error_step_recovers (o : Oracle) (step r : Nat)
    (hist : List HistoryEntry) (tr : List Event) (e : String)
    (h : o.decision step = .err e) :
    runFrom o step (r + 1) hist tr
      = runFrom o (step + 1) r (hist ++ [⟨.llmError, e⟩])
          (tr ++ [.observe (o.cleanHtml (o.pageSource step)),
                  .decisionRequest (o.cleanHtml (o.pageSource step))]) := by
  simp [runFrom, h]

/-- Witness for C7 at a concrete input: a malformed response at step 0
appends the `LLM_Error` entry and the run continues with the remaining
budget. -/
theorem llm_error_step_recovers_witness :
    runFrom errOracle 0 3 [] []
      = runFrom errOracle 1 2 [⟨.llmError, "malformed JSON"⟩]
          [.observe "<p>", .decisionRequest "<p>"] :=
  llm_error_step_recovers errOracle 0 2 [] [] "malformed JSON" rfl

/-- C9: when the model returns `ExtractData` at a step, the run equals the
run restarted at the next step with one history entry appended for it; the
step's trace gains only the observe, decision-request and extract-request
events — no `executorCall`, hence no page-mutating browser operation — the
extraction request is issued over the very same reduced markup that was
observed, and the recorded result is either the count-based success summary
or the failure reason. -/
theorem extract_data_step_no_executor (o : Oracle) (step r : Nat)
    (hist : List HistoryEntry) (tr : List Event) (d : String)
    (h : o.decision step = .ok (.ExtractData d)) :
    ∃ res : String,
      runFrom o step (r + 1) hist tr
        = runFrom o (step + 1) r (hist ++ [⟨.act (.ExtractData d), res⟩])
            (tr ++ [.observe (o.cleanHtml (o.pageSource step)),
                    .decisionRequest (o.cleanHtml (o.pageSource step)),
                    .extractRequest (o.cleanHtml (o.pageSource step))])
      ∧ ((∃ n, o.extraction step = .ok n
            ∧ res = "Successfully extracted " ++ (toString n ++ " companies."))
         ∨ (∃ m, o.extraction step = .err m
            ∧ res = "Data extraction failed: " ++ m)) := by
  refine ⟨extractionResultString (o.extraction step), ?_, ?_⟩
  · simp [runFrom, h]
  · cases hx : o.extraction step with
    | ok n => exact Or.inl ⟨n, rfl, rfl⟩
    | err m => exact Or.inr ⟨m, rfl, rfl⟩

/-- Witness for C9 at a concrete input: an `ExtractData` decision at step 0
with an extraction request returning 7 companies. -/
theorem extract_data_step_no_executor_witness :
    ∃ res : String,
      runFrom extractOracle 0 2 [] []
        = runFrom extractOracle 1 1 [⟨.act (.ExtractData "ready"), res⟩]
            [.observe "<p>", .decisionRequest "<p>", .extractRequest "<p>"]
      ∧ ((∃ n, extractOracle.extraction 0 = .ok n
            ∧ res = "Successfully extracted " ++ (toString n ++ " companies."))
         ∨ (∃ m, extractOracle.extraction 0 = .err m
            ∧ res = "Data extraction failed: " ++ m)) :=
  extract_data_step_no_executor extractOracle 0 1 [] [] "ready" rfl

/-- C8: evaluation of the code at the claim's failing input.  With budget 2
and a model that never answers `Finish` (it always chooses
`Navigate "https://a"`), the run does not complete 2 steps and end
exhausted as the claim says: the unguarded `action.description` access at
`executor.py` line 51 raises `AttributeError` during step 1's `Navigate`
(propagating through `agent.py` line 171, which has no `try`), so the run
aborts with 0 history entries after a single decision request. -/
theorem never_finish_run_aborts :
    (Agent.run noFinishOracle "https://s" 2).outcome
        = .aborted (.attributeError "description")
    ∧ (Agent.run noFinishOracle "https://s" 2).history.length = 0
    ∧ (Agent.run noFinishOracle "https://s" 2).trace.countP Event.isDecisionRequest = 1 := by
  decide

/-- C2: after successful WebDriver setup, `main` executes no step of the
decision loop: because line 67 of `main.py` calls the `async` coroutine
function `Agent.run` without awaiting it, the trace of `main` contains no
loop event whatsoever (no observation, no model request, no executor call,
not even the initial navigation), while `driver.quit()` occurs on every
such exit path, whether or not agent construction raises. -/
theorem main_never_runs_loop (initFail : Option String) :
    (∀ e : Event, MainEvent.loopStep e ∉ main none initFail)
    ∧ MainEvent.driverQuit ∈ main none initFail := by
  cases initFail <;> simp [main]

/-- C4: evaluation of the code at the claim's scenario input (budget 3,
decisions `Navigate("https://x/list")`, `ExtractData`, `Finish("done")`,
extraction returning 5 companies, a driver that raises nothing).  The run
does not perform the claimed navigation/extraction/finish: step 1's
`Navigate` raises `AttributeError` at `executor.py` line 51 (before
`_navigate` runs) and the run aborts with 0 history entries, no extraction
request, and only the one decision request. -/
theorem scenario_run_aborts :
    scenarioRun.outcome = .aborted (.attributeError "description")
    ∧ scenarioRun.history.length = 0
    ∧ scenarioRun.trace.countP Event.isExtractRequest = 0
    ∧ scenarioRun.trace.countP Event.isDecisionRequest = 1 := by
  decide

/-! ## Claims about the executor -/

/-- C1: evaluation of the code at the claim's failing input.  The claim
includes `Navigate` among the actions for which `execute` never raises
past its boundary, but `executor.py` line 51 evaluates
`action.description` outside the `try` block and the `Navigate` pydantic
model has no `description` field, so `execute` raises `AttributeError`
before any `except` clause can catch it — even when the driver itself
would raise nothing.  A `Click` under the same driver returns normally,
showing the escape is caused by the missing field, not the browser
effect. -/
theorem navigate_execute_raises :
    ActionExecutor.execute (fun _ => none) (.Navigate "https://x/list")
      = .error (.attributeError "description")
    ∧ ActionExecutor.execute (fun _ => none) (.Click "#a" "d") = .ok "Success" :=
  ⟨rfl, rfl⟩

/-- C10: for every `Click`, `FillField`, `SelectDropdown` or
`PerformPostback` (all four carry a `description` field, so the line-51
access succeeds) whose element lookup raises `NoSuchElementException` or
`TimeoutException` (selector matched nothing, or the wait timed out),
`ActionExecutor.execute` returns normally — no exception past the Executor
boundary — with a result string containing the words `Element not
found`. -/
theorem element_not_found_result (a : Action) (env : DriverEnv) (e : DriverExc)
    (ha : a.isElementAction = true)
    (he : e = DriverExc.noSuchElement ∨ e = DriverExc.timeout)
    (hv : env a = some e) :
    ∃ s₁ s₂, ActionExecutor.execute env a = .ok (s₁ ++ ("Element not found" ++ s₂)) := by
  have hexec : ActionExecutor.execute env a = .ok (ActionExecutor.notFoundMessage a e) := by
    rcases he with rfl | rfl
    · exact execute_of_exc env a .noSuchElement ha hv
    · exact execute_of_exc env a .timeout ha hv
  have hstr : ActionExecutor.notFoundMessage a e
      = ("Error executing " ++ (a.action_name ++ ": "))
        ++ ("Element not found"
            ++ (" with selector \x27"
                ++ (a.selectorOrNA ++ ("\x27. Details: " ++ e.className)))) := by
    unfold ActionExecutor.notFoundMessage
    rw [colon_element_split]
    simp only [String.append_assoc]
  exact ⟨_, _, by rw [hexec, hstr]⟩

/-- Witness for C10 at a concrete input: a `FillField` under a driver that
always raises `TimeoutException`. -/
theorem element_not_found_result_witness :
    ∃ s₁ s₂, ActionExecutor.execute timeoutEnv (.FillField "#q" "hello" "d")
      = .ok (s₁ ++ ("Element not found" ++ s₂)) :=
  element_not_found_result (.FillField "#q" "hello" "d") timeoutEnv .timeout
    (by decide) (Or.inr rfl) rfl

/-! ## Claims about Toolbox validation -/

/-- C5: validation succeeds on every payload whose tag names a known
variant and which supplies all of that variant's required fields, yielding
an instance of exactly that variant (its tag equals the payload's tag);
and it fails with a `SchemaViolation` on every payload with an unknown tag
or a missing required field. -/
theorem validate_known_tags (p : RawPayload) :
    (knownTag p.tag = true ∧ requiredPresent p = true →
      ∃ a, Toolbox.validate p = .ok a ∧ a.action_name = p.tag)
    ∧ (knownTag p.tag = false ∨ requiredPresent p = false →
      ∃ f, Toolbox.validate p = .error (.schemaViolation f)) := by
  by_cases h1 : p.tag = "navigate"
  · constructor
    · rintro ⟨-, hr⟩
      simp [requiredPresent, h1] at hr
      obtain ⟨u, hu⟩ := Option.isSome_iff_exists.mp hr
      exact ⟨.Navigate u, by simp [Toolbox.validate, h1, hu], by simp [Action.action_name, h1]⟩
    · rintro (hk | hr)
      · rw [h1] at hk
        exact absurd hk (by decide)
      · simp [requiredPresent, h1] at hr
        cases hu : p.url with
        | some u => rw [hu] at hr; simp at hr
        | none => exact ⟨"url", by simp [Toolbox.validate, h1, hu]⟩
  by_cases h2 : p.tag = "click"
  · constructor
    · rintro ⟨-, hr⟩
      simp [requiredPresent, h1, h2, Bool.and_eq_true] at hr
      obtain ⟨hc, hd⟩ := hr
      obtain ⟨s, hs⟩ := Option.isSome_iff_exists.mp hc
      obtain ⟨d, hd'⟩ := Option.isSome_iff_exists.mp hd
      exact ⟨.Click s d, by simp [Toolbox.validate, h1, h2, hs, hd'],
        by simp [Action.action_name, h2]⟩
    · rintro (hk | hr)
      · rw [h2] at hk
        exact absurd hk (by decide)
      · cases hs : p.css_selector <;> cases hd : p.description <;>
          simp_all [requiredPresent, Toolbox.validate, h1, h2]
  by_cases h3 : p.tag = "fill_field"
  · constructor
    · rintro ⟨-, hr⟩
      simp [requiredPresent, h1, h2, h3, Bool.and_eq_true] at hr
      obtain ⟨⟨hc, ht⟩, hd⟩ := hr
      obtain ⟨s, hs⟩ := Option.isSome_iff_exists.mp hc
      obtain ⟨t, ht'⟩ := Option.isSome_iff_exists.mp ht
      obtain ⟨d, hd'⟩ := Option.isSome_iff_exists.mp hd
      exact ⟨.FillField s t d, by simp [Toolbox.validate, h1, h2, h3, hs, ht', hd'],
        by simp [Action.action_name, h3]⟩
    · rintro (hk | hr)
      · rw [h3] at hk
        exact absurd hk (by decide)
      · cases hs : p.css_selector <;> cases ht : p.text <;> cases hd : p.description <;>
          simp_all [requiredPresent, Toolbox.validate, h1, h2, h3]
  by_cases h4 : p.tag = "select_dropdown"
  · constructor
    · rintro ⟨-, hr⟩
      simp [requiredPresent, h1, h2, h3, h4, Bool.and_eq_true] at hr
      obtain ⟨⟨hc, hv⟩, hd⟩ := hr
      obtain ⟨s, hs⟩ := Option.isSome_iff_exists.mp hc
      obtain ⟨v, hv'⟩ := Option.isSome_iff_exists.mp hv
      obtain ⟨d, hd'⟩ := Option.isSome_iff_exists.mp hd
      exact ⟨.SelectDropdown s v d, by simp [Toolbox.validate, h1, h2, h3, h4, hs, hv', hd'],
        by simp [Action.action_name, h4]⟩
    · rintro (hk | hr)
      · rw [h4] at hk
        exact absurd hk (by decide)
      · cases hs : p.css_selector <;> cases hv : p.value <;> cases hd : p.description <;>
          simp_all [requiredPresent, Toolbox.validate, h1, h2, h3, h4]
  by_cases h5 : p.tag = "perform_postback"
  · constructor
    · rintro ⟨-, hr⟩
      simp [requiredPresent, h1, h2, h3, h4, h5, Bool.and_eq_true] at hr
      obtain ⟨⟨he, ha⟩, hd⟩ := hr
      obtain ⟨t, ht'⟩ := Option.isSome_iff_exists.mp he
      obtain ⟨g, hg'⟩ := Option.isSome_iff_exists.mp ha
      obtain ⟨d, hd'⟩ := Option.isSome_iff_exists.mp hd
      exact ⟨.PerformPostback t g d,
        by simp [Toolbox.validate, h1, h2, h3, h4, h5, ht', hg', hd'],
        by simp [Action.action_name, h5]⟩
    · rintro (hk | hr)
      · rw [h5] at hk
        exact absurd hk (by decide)
      · cases he : p.event_target <;> cases ha : p.event_argument <;>
          cases hd : p.description <;>
          simp_all [requiredPresent, Toolbox.validate, h1, h2, h3, h4, h5]
  by_cases h6 : p.tag = "extract_data"
  · constructor
    · rintro ⟨-, hr⟩
      simp [requiredPresent, h1, h2, h3, h4, h5, h6] at hr
      obtain ⟨d, hd⟩ := Option.isSome_iff_exists.mp hr
      exact ⟨.ExtractData d, by simp [Toolbox.validate, h1, h2, h3, h4, h5, h6, hd],
        by simp [Action.action_name, h6]⟩
    · rintro (hk | hr)
      · rw [h6] at hk
        exact absurd hk (by decide)
      · simp [requiredPresent, h1, h2, h3, h4, h5, h6] at hr
        cases hd : p.description with
        | some d => rw [hd] at hr; simp at hr
        | none => exact ⟨"description", by simp [Toolbox.validate, h1, h2, h3, h4, h5, h6, hd]⟩
  by_cases h7 : p.tag = "finish"
  · constructor
    · rintro ⟨-, hr⟩
      simp [requiredPresent, h1, h2, h3, h4, h5, h6, h7] at hr
      obtain ⟨r, hrr⟩ := Option.isSome_iff_exists.mp hr
      exact ⟨.Finish r, by simp [Toolbox.validate, h1, h2, h3, h4, h5, h6, h7, hrr],
        by simp [Action.action_name, h7]⟩
    · rintro (hk | hr)
      · rw [h7] at hk
        exact absurd hk (by decide)
      · simp [requiredPresent, h1, h2, h3, h4, h5, h6, h7] at hr
        cases hrr : p.reason with
        | some r => rw [hrr] at hr; simp at hr
        | none => exact ⟨"reason", by simp [Toolbox.validate, h1, h2, h3, h4, h5, h6, h7, hrr]⟩
  · constructor
    · rintro ⟨hk, -⟩
      exfalso
      simp [knownTag, h1, h2, h3, h4, h5, h6, h7] at hk
    · intro _
      exact ⟨"action_name", by simp [Toolbox.validate, h1, h2, h3, h4, h5, h6, h7]⟩

/-- Payload for the C5 witness: a well-formed `click`. -/
def clickPayload : RawPayload :=
  { tag := "click", css_selector := some "a#login", description := some "Click login" }

/-- Witness for C5 at a concrete input: a complete `click` payload
validates to a `Click` instance carrying that tag. -/
theorem validate_known_tags_witness :
    ∃ a, Toolbox.validate clickPayload = .ok a ∧ a.action_name = clickPayload.tag :=
  (validate_known_tags clickPayload).1 ⟨by decide, by decide⟩

/-- Payload with tag `navigate` whose required `url` field is present but
empty. -/
def emptyUrlPayload : RawPayload := { tag := "navigate", url := some "" }

/-- C6 counterexample: a payload supplying an empty value for a required
field is NOT rejected — `{action_name: "navigate", url: ""}` validates
successfully, because pydantic `str` fields declared with `Field(...)`
require presence, not non-emptiness. -/
theorem empty_required_field_accepted :
    Toolbox.validate emptyUrlPayload = .ok (.Navigate "") := by
  rfl

/-- C6 amended: every `Action` produced by validation carries the tag of
exactly its variant, and every required field of that variant was present
in the payload; required fields may however be empty strings — validation
does not reject an empty value. -/
theorem validated_action_tagged (p : RawPayload) (a : Action)
    (h : Toolbox.validate p = .ok a) :
    a.action_name = p.tag ∧ requiredPresent p = true := by
  have hko := (validate_known_tags p).2
  by_cases hk : knownTag p.tag = true ∧ requiredPresent p = true
  · obtain ⟨b, hb, hb'⟩ := (validate_known_tags p).1 hk
    rw [h] at hb
    cases hb
    exact ⟨hb', hk.2⟩
  · have : knownTag p.tag = false ∨ requiredPresent p = false := by
      rcases Decidable.not_and_iff_or_not.mp hk with h' | h'
      · exact Or.inl (Bool.not_eq_true _ ▸ Bool.eq_false_iff.mpr fun hh => h' hh)
      · exact Or.inr (Bool.not_eq_true _ ▸ Bool.eq_false_iff.mpr fun hh => h' hh)
    obtain ⟨f, hf⟩ := hko this
    rw [h] at hf
    cases hf

/-- Witness for C6 (amended) at a concrete input: a valid `navigate`
payload yields a `Navigate` carrying the payload's tag, with the required
field present. -/
theorem validated_action_tagged_witness :
    (Action.Navigate "https://e").action_name
        = ({ tag := "navigate", url := some "https://e" } : RawPayload).tag
    ∧ requiredPresent { tag := "navigate", url := some "https://e" } = true :=
  validated_action_tagged { tag := "navigate", url := some "https://e" }
    (.Navigate "https://e") rfl

end AiScrapper
